import Mathlib

/-!
Verification of the retrieval-augmented code-review backend
(`app/services.py`, `app/RAG/*`, `app/api/routes_*`).

The development shallowly embeds the response-normalization layer, the
credential resolver, the endpoint extraction code and (from the spec, where
the implementation is an external library) the chunker and the vector-index
search, and proves the frozen claims about them.
-/

/-- JSON values as produced by Python `json.loads`.
Numbers are restricted to integer numerals: the source's prompts and
endpoint models only exchange integer-valued fields, and no claim exercises
fractional numbers. Object fields keep parse order; duplicate keys are
resolved last-wins at lookup time, as a Python dict built by `json.loads`
would. -/
inductive Json where
  | null : Json
  | bool (b : Bool) : Json
  | num (n : Int) : Json
  | str (s : String) : Json
  | arr (elems : List Json) : Json
  | obj (fields : List (String × Json)) : Json

/-- JSON whitespace accepted by Python `json.loads` (space, tab, LF, CR). -/
def isWsChar (c : Char) : Bool :=
  c = ' ' || c = '\t' || c = '\n' || c = '\r'

/-- Drop leading JSON whitespace. -/
def skipWs : List Char → List Char
  | [] => []
  | c :: cs => if isWsChar c then skipWs cs else c :: cs

def isDigitChar (c : Char) : Bool :=
  '0' ≤ c && c ≤ '9'

def digitVal (c : Char) : Nat := c.toNat - 48

/-- Collect a maximal run of decimal digits. -/
def takeDigits : List Char → (List Char × List Char)
  | [] => ([], [])
  | c :: cs =>
    if isDigitChar c then
      let (ds, rest) := takeDigits cs
      (c :: ds, rest)
    else ([], c :: cs)

def digitsToNat (ds : List Char) : Nat :=
  ds.foldl (fun acc c => 10 * acc + digitVal c) 0

/-- Parse an unsigned JSON integer numeral: at least one digit, no leading
zero (except "0" itself), and — matching the integer restriction of this
model — not followed by a fraction or exponent part. -/
def parseNatNum (cs : List Char) : Option (Nat × List Char) :=
  match takeDigits cs with
  | ([], _) => none
  | (d :: ds, rest) =>
    if d = '0' && ds ≠ [] then none
    else match rest with
      | '.' :: _ => none
      | 'e' :: _ => none
      | 'E' :: _ => none
      | _ => some (digitsToNat (d :: ds), rest)

/-- Parse a JSON number token (integer numerals only, see `Json`). -/
def parseNumber (cs : List Char) : Option (Json × List Char) :=
  match cs with
  | '-' :: rest =>
    (parseNatNum rest).map (fun p => (Json.num (-(p.1 : Int)), p.2))
  | _ =>
    (parseNatNum cs).map (fun p => (Json.num (p.1 : Int), p.2))

/-- Value of a hexadecimal digit, if any. -/
def hexVal (c : Char) : Option Nat :=
  if isDigitChar c then some (digitVal c)
  else if 'a' ≤ c && c ≤ 'f' then some (c.toNat - 97 + 10)
  else if 'A' ≤ c && c ≤ 'F' then some (c.toNat - 65 + 10)
  else none

/-- Body of a JSON string after the opening quote, in strict mode: an
unescaped control character is rejected, escapes are the JSON ones
(`\u` escapes map to the code point directly; surrogate pairing is not
modelled, no claim exercises it). Returns the decoded characters and the
input after the closing quote. -/
def parseStringBody : List Char → Option (List Char × List Char)
  | [] => none
  | '"' :: rest => some ([], rest)
  | '\\' :: 'u' :: a :: b :: c :: d :: rest =>
    match hexVal a, hexVal b, hexVal c, hexVal d with
    | some ha, some hb, some hc, some hd =>
      (parseStringBody rest).map (fun p =>
        (Char.ofNat (((ha * 16 + hb) * 16 + hc) * 16 + hd) :: p.1, p.2))
    | _, _, _, _ => none
  | '\\' :: e :: rest =>
    let dec : Option Char :=
      if e = '"' then some '"'
      else if e = '\\' then some '\\'
      else if e = '/' then some '/'
      else if e = 'b' then some '\x08'
      else if e = 'f' then some '\x0c'
      else if e = 'n' then some '\n'
      else if e = 'r' then some '\r'
      else if e = 't' then some '\t'
      else none
    match dec with
    | some ch => (parseStringBody rest).map (fun p => (ch :: p.1, p.2))
    | none => none
  | c :: rest =>
    if c.toNat < 32 then none
    else (parseStringBody rest).map (fun p => (c :: p.1, p.2))

mutual

/-- Recursive-descent JSON value parser modelling Python `json.loads`
(fuel-indexed; the callers supply fuel exceeding the input length). -/
def parseValue : Nat → List Char → Option (Json × List Char)
  | 0, _ => none
  | fuel + 1, cs =>
    match skipWs cs with
    | 'n' :: 'u' :: 'l' :: 'l' :: rest => some (Json.null, rest)
    | 't' :: 'r' :: 'u' :: 'e' :: rest => some (Json.bool true, rest)
    | 'f' :: 'a' :: 'l' :: 's' :: 'e' :: rest => some (Json.bool false, rest)
    | '"' :: rest =>
      (parseStringBody rest).map (fun p => (Json.str (String.mk p.1), p.2))
    | '[' :: rest =>
      (match skipWs rest with
       | ']' :: rest2 => some (Json.arr [], rest2)
       | other => (parseItems fuel other).map
           (fun p => (Json.arr p.1, p.2)))
    | '{' :: rest =>
      (match skipWs rest with
       | '}' :: rest2 => some (Json.obj [], rest2)
       | other => (parseMembers fuel other).map
           (fun p => (Json.obj p.1, p.2)))
    | other => parseNumber other

/-- One or more comma-separated array items, up to the closing bracket. -/
def parseItems : Nat → List Char → Option (List Json × List Char)
  | 0, _ => none
  | fuel + 1, cs =>
    match parseValue fuel cs with
    | none => none
    | some (v, rest) =>
      match skipWs rest with
      | ',' :: rest2 =>
        (parseItems fuel rest2).map (fun p => (v :: p.1, p.2))
      | ']' :: rest2 => some ([v], rest2)
      | _ => none

/-- One or more comma-separated object members, up to the closing brace. -/
def parseMembers : Nat → List Char → Option (List (String × Json) × List Char)
  | 0, _ => none
  | fuel + 1, cs =>
    match skipWs cs with
    | '"' :: rest =>
      match parseStringBody rest with
      | none => none
      | some (key, rest2) =>
        match skipWs rest2 with
        | ':' :: rest3 =>
          match parseValue fuel rest3 with
          | none => none
          | some (v, rest4) =>
            match skipWs rest4 with
            | ',' :: rest5 =>
              (parseMembers fuel rest5).map
                (fun p => ((String.mk key, v) :: p.1, p.2))
            | '}' :: rest5 => some ([(String.mk key, v)], rest5)
            | _ => none
        | _ => none
    | _ => none

end

/-- Model of Python `json.loads` on a string (an external standard-library
collaborator of the source): strict parse of a single JSON document, with
only whitespace allowed after it. `none` models `json.JSONDecodeError`. -/
def json_loads (s : String) : Option Json :=
  match parseValue (s.data.length + 1) s.data with
  | some (j, rest) => if skipWs rest = [] then some j else none
  | none => none

/-- Remove the first (leftmost) occurrence of `pat` from `s`, modelling
Python `s.replace(pat, '', 1)` for a non-empty `pat`. -/
def replaceFirst (pat : List Char) : List Char → List Char
  | [] => []
  | c :: cs =>
    if List.isPrefixOf pat (c :: cs) then List.drop pat.length (c :: cs)
    else c :: replaceFirst pat cs

/-- The fence-stripping step shared by `services.py` and the `app/RAG`
modules: when the response starts with "```json" and ends with "```",
remove the first occurrence of "```json\n" and then the first occurrence
of "\n```". -/
def stripFence (resp : List Char) : List Char :=
  if List.isPrefixOf "```json".data resp && List.isSuffixOf "```".data resp
  then replaceFirst "\n```".data (replaceFirst "```json\n".data resp)
  else resp

/-- Normalization tail of `analyze_code` (services.py lines 74-85 and
app/RAG/analyze_code.py lines 57-67): strip the fence, attempt the JSON
parse, and fall back to the empty issue list on failure. -/
def analyzeNormalize (response : String) : Json :=
  match json_loads (String.mk (stripFence response.data)) with
  | some j => j
  | none => Json.obj [("issues", Json.arr [])]

/-- Normalization tail of `get_code_metrics` (services.py lines 117-129 and
app/RAG/get_code_metrics.py lines 56-69): fall back to empty metric
sections on parse failure. -/
def metricsNormalize (response : String) : Json :=
  match json_loads (String.mk (stripFence response.data)) with
  | some j => j
  | none => Json.obj [("summary_metrics", Json.obj []),
                      ("issue_distribution", Json.obj [])]

/-- Normalization tail of `inject_bugs` (services.py lines 167-180 and
app/RAG/inject_bugs.py lines 89-102): fall back to the input code with an
empty bug list on parse failure. `code_snippet` is the code the call
operated on (the request code in services.py, the retrieved combined code
in the RAG module). -/
def injectNormalize (code_snippet : String) (response : String) : Json :=
  match json_loads (String.mk (stripFence response.data)) with
  | some j => j
  | none => Json.obj [("buggy_code", Json.str code_snippet),
                      ("bugs_injected", Json.arr [])]

/-- Lookup in a parsed JSON object: the last binding wins, matching the
Python dict `json.loads` builds from duplicate keys. -/
def lookupLast (fs : List (String × Json)) (k : String) : Option Json :=
  match fs with
  | [] => none
  | (k', v) :: rest =>
    match lookupLast rest k with
    | some r => some r
    | none => if k' = k then some v else none

/-- Python `dict.get(k, d)` on a parsed object's fields. -/
def jget (fs : List (String × Json)) (k : String) (d : Json) : Json :=
  (lookupLast fs k).getD d

/-- Python `x.get(k, d)` where `x` may be any parsed value: a non-dict
receiver raises `AttributeError` (modelled as `none`). -/
def pyGetAttr (j : Json) (k : String) (d : Json) : Option Json :=
  match j with
  | Json.obj fs => some (jget fs k d)
  | _ => none

/-- Pydantic validation of a `str` field (coercions are not modelled; the
claims only exercise strings and absent fields). -/
def asStr : Json → Option String
  | Json.str s => some s
  | _ => none

/-- Pydantic validation of an `int` field (numeric-string coercion is not
modelled; the claims only exercise integers and absent fields). -/
def asIntJ : Json → Option Int
  | Json.num n => some n
  | _ => none

/-- Pydantic validation of the `Optional[int]` field `lineNumber`, fed by
`issue.get("lineNumber")`: absent or JSON null become `None`. -/
def asOptInt : Option Json → Option (Option Int)
  | none => some none
  | some Json.null => some none
  | some (Json.num n) => some (some n)
  | some _ => none

/-- ASCII model of Python `str.strip()` whitespace. -/
def isSpaceChar (c : Char) : Bool :=
  c = ' ' || c = '\t' || c = '\n' || c = '\r' || c = '\x0b' || c = '\x0c'

/-- Python `s.strip()`: remove leading and trailing whitespace. -/
def pyStrip (s : String) : String :=
  String.mk ((((s.data.dropWhile isSpaceChar).reverse).dropWhile isSpaceChar).reverse)

/-- Python `s.lower()` restricted to ASCII letters (the placeholder values
the source compares against are ASCII). -/
def pyLower (s : String) : String :=
  String.mk (s.data.map (fun c =>
    if 'A' ≤ c && c ≤ 'Z' then Char.ofNat (c.toNat + 32) else c))

/-- The Swagger-placeholder values `get_api_key` treats as absent. -/
def placeholderKeys : List String := ["string", "none", "null", ""]

/-- Errors a service call can surface to its endpoint. -/
inductive PyErr where
  | valueError (msg : String) : PyErr
  | upstream (msg : String) : PyErr

/-- Error message raised by `get_api_key` when no credential is available. -/
def apiKeyErrMsg : String :=
  "API_KEY is required. Provide it in the request or set API_KEY environment variable."

/-- Fallback branch of `get_api_key` (services.py lines 39-44): use the
stripped environment default when it is truthy and non-blank, otherwise
raise `ValueError`. -/
def fallbackKey : Option String → Except String String
  | some dk => if pyStrip dk ≠ "" then Except.ok (pyStrip dk)
               else Except.error apiKeyErrMsg
  | none => Except.error apiKeyErrMsg

/-- `get_api_key` (services.py lines 19-44): a truthy user key that is not a
Swagger placeholder is used stripped; otherwise the environment default is
used; otherwise `ValueError` is raised. `default_api_key` models the
process-wide `DEFAULT_API_KEY` read from the environment. -/
def get_api_key (user_api_key : Option String) (default_api_key : Option String) :
    Except String String :=
  match user_api_key with
  | some u =>
    if u ≠ "" then
      let cleaned := pyStrip u
      if pyLower cleaned ∈ placeholderKeys then fallbackKey default_api_key
      else Except.ok cleaned
    else fallbackKey default_api_key
  | none => fallbackKey default_api_key

namespace Services

/-- `services.analyze_code`: resolve the credential, call the LLM chain on
the code snippet (the chain — prompt render plus remote completion — is an
external collaborator, passed as the oracle `llm`; `Except.error` models a
network/auth failure), and normalize the response. A missing credential
raises before the chain is invoked. -/
def analyze_code (code_snippet : String) (api_key : Option String)
    (default_api_key : Option String) (llm : String → Except String String) :
    Except PyErr Json :=
  match get_api_key api_key default_api_key with
  | Except.error e => Except.error (PyErr.valueError e)
  | Except.ok _ =>
    match llm code_snippet with
    | Except.error e => Except.error (PyErr.upstream e)
    | Except.ok resp => Except.ok (analyzeNormalize resp)

/-- `services.get_code_metrics`: same pipeline with the metrics prompt and
the metrics default. -/
def get_code_metrics (code_snippet : String) (api_key : Option String)
    (default_api_key : Option String) (llm : String → Except String String) :
    Except PyErr Json :=
  match get_api_key api_key default_api_key with
  | Except.error e => Except.error (PyErr.valueError e)
  | Except.ok _ =>
    match llm code_snippet with
    | Except.error e => Except.error (PyErr.upstream e)
    | Except.ok resp => Except.ok (metricsNormalize resp)

/-- `services.inject_bugs`: the chain oracle additionally receives the bug
parameters the source passes to `chain.invoke`. -/
def inject_bugs (code_snippet : String) (bug_type : String)
    (severity_level : Int) (num_bugs : Int) (api_key : Option String)
    (default_api_key : Option String)
    (llm : String → String → Int → Int → Except String String) :
    Except PyErr Json :=
  match get_api_key api_key default_api_key with
  | Except.error e => Except.error (PyErr.valueError e)
  | Except.ok _ =>
    match llm code_snippet bug_type severity_level num_bugs with
    | Except.error e => Except.error (PyErr.upstream e)
    | Except.ok resp => Except.ok (injectNormalize code_snippet resp)

end Services

/-- Error message of the `app/RAG` modules' credential check. -/
def ragKeyErrMsg : String := "API_KEY is not configured. Please check your .env file."

/-- Python truthiness of the module-level `API_KEY` in `app/RAG/config.py`
(`None` or the empty string are falsy). -/
def truthyKey : Option String → Bool
  | none => false
  | some k => k ≠ ""

namespace RAG

/-- `app/RAG/analyze_code.analyze_code`: check the configured `API_KEY`
first, then embed the query, retrieve the top-5 chunks, join them with a
blank line, call the LLM chain and normalize. The embedding model, the
vector-store search and the LLM chain are external collaborators, passed
as oracles. -/
def analyze_code (api_key_cfg : Option String) (query : String)
    (embed : String → List Int) (search : List Int → Nat → List String)
    (llm : String → Except String String) : Except PyErr Json :=
  if truthyKey api_key_cfg = false then Except.error (PyErr.valueError ragKeyErrMsg)
  else
    let query_embedding := embed query
    let relevant_docs := search query_embedding 5
    let combined := String.intercalate "\n\n" relevant_docs
    match llm combined with
    | Except.error e => Except.error (PyErr.upstream e)
    | Except.ok resp => Except.ok (analyzeNormalize resp)

end RAG

/-- Squared Euclidean distance between integer-component embeddings (rank
ordering equivalent to the normalized distance the spec allows). -/
def sqDist (a b : List Int) : Int :=
  match a, b with
  | x :: xs, y :: ys => (x - y) * (x - y) + sqDist xs ys
  | _, _ => 0

/-- Modelled from the spec: the Chroma vector store's
`similarity_search_by_vector` is an external library; §4.2 specifies that
`search(query_vector, k)` returns the `k` stored chunks whose embeddings
are closest to the query vector, ties broken by insertion order (a stable
sort gives that), and that an empty index yields an empty result without
error. -/
def similarity_search_by_vector (entries : List (List Int × String))
    (query_vector : List Int) (k : Nat) : List String :=
  ((entries.mergeSort (fun a b => sqDist a.1 query_vector ≤ sqDist b.1 query_vector)).take k).map
    Prod.snd

/-- Modelled from the spec: §4.3 Retriever — embed the query with the same
provider used for indexing, then delegate to the index search. -/
def retrieve (embed : String → List Int) (entries : List (List Int × String))
    (query : String) (k : Nat) : List String :=
  similarity_search_by_vector entries (embed query) k

/-- Modelled from the spec: §4.1 Chunker — the source delegates to
LangChain's `RecursiveCharacterTextSplitter(chunk_size=1000,
chunk_overlap=200)` (an external library), and the spec fixes the
windowing contract: successive windows of at most `size` characters, each
subsequent window starting `size - overlap` characters after the previous
one's start. Fuel-indexed; `split_text` supplies fuel covering the whole
document. -/
def splitFuel (size overlap : Nat) : Nat → List Char → List (List Char)
  | 0, d => [d]
  | fuel + 1, d =>
    if d.length ≤ size then [d]
    else List.take size d :: splitFuel size overlap fuel (List.drop (size - overlap) d)

/-- Modelled from the spec: §4.1 Chunker entry point (see `splitFuel`). -/
def split_text (size overlap : Nat) (d : List Char) : List (List Char) :=
  splitFuel size overlap d.length d

/-- Concatenate chunks in order while removing each duplicated overlap
region once: the first chunk whole, every later chunk without its first
`overlap` characters. -/
def reassemble (overlap : Nat) : List (List Char) → List Char
  | [] => []
  | c :: cs => c ++ (cs.map (List.drop overlap)).flatten

/-- Adjacent chunks share exactly `overlap` characters: the last `overlap`
characters of each chunk equal the first `overlap` characters of the next. -/
def adjacentShareB (overlap : Nat) : List (List Char) → Bool
  | a :: b :: rest =>
    (decide (List.drop (a.length - overlap) a = List.take overlap b))
      && adjacentShareB overlap (b :: rest)
  | _ => true

/-- Response item of the analyze endpoint (`routes_analyze_code.IssueDetail`). -/
structure IssueDetail where
  title : String
  type : String
  severity : String
  lineNumber : Option Int
  description : String
  suggestedFix : String
deriving DecidableEq

/-- Per-issue conversion in `analyze_code_endpoint` (routes_analyze_code.py
lines 86-98): `.get` with per-field defaults, validated by pydantic;
a malformed issue (non-dict, or a present field of the wrong type) raises
inside the loop body and is skipped (`none`). -/
def formatIssue (issue : Json) : Option IssueDetail :=
  match issue with
  | Json.obj fs => do
    let title ← asStr (jget fs "title" (Json.str ""))
    let ty ← asStr (jget fs "type" (Json.str ""))
    let sev ← asStr (jget fs "severity" (Json.str ""))
    let ln ← asOptInt (lookupLast fs "lineNumber")
    let desc ← asStr (jget fs "description" (Json.str ""))
    let fix ← asStr (jget fs "suggestedFix" (Json.str ""))
    pure ⟨title, ty, sev, ln, desc, fix⟩
  | _ => none

/-- `routes_code_metrics.SummaryMetrics`. -/
structure SummaryMetrics where
  code_quality_score : Int
  security_rating : Int
  bug_density : Int
  critical_issue_count : Int
deriving DecidableEq

/-- `routes_code_metrics.IssueDistribution`. -/
structure IssueDistribution where
  security_vulnerabilities : Int
  code_smells : Int
  best_practices : Int
  performance_issues : Int
deriving DecidableEq

/-- Success-path extraction of `code_metrics_endpoint`
(routes_code_metrics.py lines 90-107): `result.get` with `{}` defaults for
the two sections, then `.get(field, 0)` per metric; any raised
`AttributeError` or pydantic validation error falls to the generic handler
(`none`). -/
def metricsExtract (result : Json) : Option (SummaryMetrics × IssueDistribution) := do
  let sm ← pyGetAttr result "summary_metrics" (Json.obj [])
  let di ← pyGetAttr result "issue_distribution" (Json.obj [])
  let cqs ← pyGetAttr sm "code_quality_score" (Json.num 0) >>= asIntJ
  let sr ← pyGetAttr sm "security_rating" (Json.num 0) >>= asIntJ
  let bd ← pyGetAttr sm "bug_density" (Json.num 0) >>= asIntJ
  let cic ← pyGetAttr sm "critical_issue_count" (Json.num 0) >>= asIntJ
  let sv ← pyGetAttr di "security_vulnerabilities" (Json.num 0) >>= asIntJ
  let cs ← pyGetAttr di "code_smells" (Json.num 0) >>= asIntJ
  let bp ← pyGetAttr di "best_practices" (Json.num 0) >>= asIntJ
  let pi ← pyGetAttr di "performance_issues" (Json.num 0) >>= asIntJ
  pure (⟨cqs, sr, bd, cic⟩, ⟨sv, cs, bp, pi⟩)

/-- `routes_inject_bugs.BugDetail`. -/
structure BugDetail where
  type : String
  line_number : Int
  description : String
deriving DecidableEq

/-- Per-bug conversion in `inject_bugs_endpoint` (routes_inject_bugs.py
lines 100-110): `.get` with per-field defaults; a malformed bug is skipped. -/
def formatBug (bug : Json) : Option BugDetail :=
  match bug with
  | Json.obj fs => do
    let ty ← asStr (jget fs "type" (Json.str ""))
    let ln ← asIntJ (jget fs "line_number" (Json.num 0))
    let desc ← asStr (jget fs "description" (Json.str ""))
    pure ⟨ty, ln, desc⟩
  | _ => none

/-- `routes_inject_bugs.InjectBugsRequest` with the pydantic `Field`
bounds recorded separately in `injectBugsRequestValid`. -/
structure InjectBugsRequest where
  code : Option String
  bug_type : String
  severity_level : Int
  num_bugs : Int
  api_key : Option String

/-- The pydantic bounds on `InjectBugsRequest` (routes_inject_bugs.py lines
25-36): `severity_level ∈ [1,5]`, `num_bugs ∈ [1,10]`. -/
def injectBugsRequestValid (r : InjectBugsRequest) : Bool :=
  1 ≤ r.severity_level && r.severity_level ≤ 5 && 1 ≤ r.num_bugs && r.num_bugs ≤ 10

/-- The pydantic bound on `CodeInputRequest.code_snippets`
(routes_code_input.py lines 29-35): `min_items=1`. -/
def codeInputRequestValid (code_snippets : List String) : Bool :=
  1 ≤ code_snippets.length

/-- `routes_inject_bugs.InjectBugsResponse`. -/
structure InjectBugsResponse where
  status : String
  buggy_code : String
  bugs_injected : List BugDetail
  total_bugs_injected : Int

/-- The all-zero error body every failure arm of `inject_bugs_endpoint`
returns. -/
def injectErrorResponse : InjectBugsResponse :=
  ⟨"error", "", [], 0⟩

/-- Handler body of `inject_bugs_endpoint` (routes_inject_bugs.py lines
75-136). `stored` models `get_stored_code()` (defined outside the
available sources); `default_api_key` models the process environment key;
`llm` is the external chain oracle of `Services.inject_bugs`. The branches
mirror the Python control flow: falsy request code falls back to the
stored code, a falsy result is the missing-code error body, a `ValueError`
from the credential resolver and any other exception (upstream failure,
`.get` on a non-dict result, a non-string `buggy_code`, iterating a
non-iterable bug list) all produce the same error body, and on success
each well-formed bug is kept, malformed ones are skipped (iterating a
string or a dict yields only malformed items). -/
def inject_bugs_endpoint (request : InjectBugsRequest) (stored : Option String)
    (default_api_key : Option String)
    (llm : String → String → Int → Int → Except String String) :
    InjectBugsResponse :=
  let code_to_analyze : Option String :=
    match request.code with
    | some c => if c ≠ "" then some c else stored
    | none => stored
  match code_to_analyze with
  | none => injectErrorResponse
  | some c =>
    if c = "" then injectErrorResponse
    else
      match Services.inject_bugs c request.bug_type request.severity_level
          request.num_bugs request.api_key default_api_key llm with
      | Except.error _ => injectErrorResponse
      | Except.ok result =>
        match result with
        | Json.obj fs =>
          match asStr (jget fs "buggy_code" (Json.str "")) with
          | none => injectErrorResponse
          | some bc =>
            match jget fs "bugs_injected" (Json.arr []) with
            | Json.arr items =>
              let formatted := items.filterMap formatBug
              ⟨"success", bc, formatted, (formatted.length : Int)⟩
            | Json.str _ => ⟨"success", bc, [], 0⟩
            | Json.obj _ => ⟨"success", bc, [], 0⟩
            | _ => injectErrorResponse
        | _ => injectErrorResponse

/-- FastAPI runs the handler only after pydantic accepts the request; an
invalid request is rejected with status 422 before the handler (and hence
any index or network access) runs. -/
def inject_bugs_route (r : InjectBugsRequest) (stored : Option String)
    (default_api_key : Option String)
    (llm : String → String → Int → Int → Except String String) :
    Except Nat InjectBugsResponse :=
  if injectBugsRequestValid r then
    Except.ok (inject_bugs_endpoint r stored default_api_key llm)
  else Except.error 422

/-- `routes_code_input.CodeInputResponse`. -/
structure CodeInputResponse where
  status : String
  message : String
  snippets_loaded : Nat

/-- `code_input_endpoint` behind its pydantic gate: an empty snippet list
is rejected with 422 before `load_and_index_code` (the `ingest` oracle,
covering chunking, embedding and the index write) runs. -/
def code_input_route (code_snippets : List String)
    (ingest : List String → String) : Except Nat CodeInputResponse :=
  if codeInputRequestValid code_snippets then
    Except.ok ⟨"success", ingest code_snippets, code_snippets.length⟩
  else Except.error 422

/-- A field that is absent or a JSON string (the well-typed inputs of a
pydantic `str` field fed through `.get(k, "")`). -/
def strFieldOk (fs : List (String × Json)) (k : String) : Bool :=
  match lookupLast fs k with
  | none => true
  | some (Json.str _) => true
  | some _ => false

/-- A field that is absent or a JSON integer. -/
def intFieldOk (fs : List (String × Json)) (k : String) : Bool :=
  match lookupLast fs k with
  | none => true
  | some (Json.num _) => true
  | some _ => false

/-- A field that is absent, JSON null, or a JSON integer (the well-typed
inputs of the `Optional[int]` field `lineNumber`). -/
def optIntFieldOk (fs : List (String × Json)) (k : String) : Bool :=
  match lookupLast fs k with
  | none => true
  | some Json.null => true
  | some (Json.num _) => true
  | some _ => false

/-- Defaulted string field: absent becomes the empty string. -/
def strField (fs : List (String × Json)) (k : String) : String :=
  match lookupLast fs k with
  | some (Json.str s) => s
  | _ => ""

/-- Defaulted numeric field: absent becomes 0. -/
def intField (fs : List (String × Json)) (k : String) : Int :=
  match lookupLast fs k with
  | some (Json.num n) => n
  | _ => 0

/-- Defaulted optional numeric field: absent (or null) becomes `none`. -/
def optIntField (fs : List (String × Json)) (k : String) : Option Int :=
  match lookupLast fs k with
  | some (Json.num n) => some n
  | _ => none

/-- All issue fields absent or well-typed. -/
def issueFieldsOk (fs : List (String × Json)) : Bool :=
  strFieldOk fs "title" && strFieldOk fs "type" && strFieldOk fs "severity"
    && optIntFieldOk fs "lineNumber" && strFieldOk fs "description"
    && strFieldOk fs "suggestedFix"

/-- The issue the endpoint builds from a well-typed issue object, with the
per-field defaults spelled out. -/
def issueFromFields (fs : List (String × Json)) : IssueDetail :=
  ⟨strField fs "title", strField fs "type", strField fs "severity",
   optIntField fs "lineNumber", strField fs "description",
   strField fs "suggestedFix"⟩

/-- All metric fields of both sections absent or integers. -/
def metricsFieldsOk (sm di : List (String × Json)) : Bool :=
  intFieldOk sm "code_quality_score" && intFieldOk sm "security_rating"
    && intFieldOk sm "bug_density" && intFieldOk sm "critical_issue_count"
    && intFieldOk di "security_vulnerabilities" && intFieldOk di "code_smells"
    && intFieldOk di "best_practices" && intFieldOk di "performance_issues"

/-- The metrics response built from well-typed sections, defaults spelled
out. -/
def metricsFromFields (sm di : List (String × Json)) :
    SummaryMetrics × IssueDistribution :=
  (⟨intField sm "code_quality_score", intField sm "security_rating",
    intField sm "bug_density", intField sm "critical_issue_count"⟩,
   ⟨intField di "security_vulnerabilities", intField di "code_smells",
    intField di "best_practices", intField di "performance_issues"⟩)

/-- All bug fields absent or well-typed. -/
def bugFieldsOk (bs : List (String × Json)) : Bool :=
  strFieldOk bs "type" && intFieldOk bs "line_number" && strFieldOk bs "description"

/-- The bug detail built from a well-typed bug object, defaults spelled
out. -/
def bugFromFields (bs : List (String × Json)) : BugDetail :=
  ⟨strField bs "type", intField bs "line_number", strField bs "description"⟩

/-- `pat` has no occurrence in `body ++ pat` starting strictly before
position `body.length` (occurrences straddling the junction included). -/
def freeOf (pat : List Char) : List Char → Bool
  | [] => true
  | c :: cs => !(List.isPrefixOf pat ((c :: cs) ++ pat)) && freeOf pat cs

lemma asStr_jget_ok (fs : List (String × Json)) (k : String)
    (h : strFieldOk fs k = true) :
    asStr ((lookupLast fs k).getD (Json.str "")) = some (strField fs k) := by
  unfold strFieldOk at h
  unfold strField
  cases hl : lookupLast fs k with
  | none => simp [asStr]
  | some v => rw [hl] at h; cases v <;> simp_all [asStr]

lemma asIntJ_jget_ok (fs : List (String × Json)) (k : String)
    (h : intFieldOk fs k = true) :
    asIntJ ((lookupLast fs k).getD (Json.num 0)) = some (intField fs k) := by
  unfold intFieldOk at h
  unfold intField
  cases hl : lookupLast fs k with
  | none => simp [asIntJ]
  | some v => rw [hl] at h; cases v <;> simp_all [asIntJ]

lemma asOptInt_ok (fs : List (String × Json)) (k : String)
    (h : optIntFieldOk fs k = true) :
    asOptInt (lookupLast fs k) = some (optIntField fs k) := by
  unfold optIntFieldOk at h
  unfold optIntField
  cases hl : lookupLast fs k with
  | none => simp [asOptInt]
  | some v => rw [hl] at h; cases v <;> simp_all [asOptInt]

lemma replaceFirst_head (pat rest : List Char) (h : pat ≠ []) :
    replaceFirst pat (pat ++ rest) = rest := by
  cases pat with
  | nil => exact absurd rfl h
  | cons p ps =>
    show replaceFirst (p :: ps) (p :: (ps ++ rest)) = rest
    unfold replaceFirst
    rw [if_pos]
    · simp [List.drop_left']
    · rw [List.isPrefixOf_iff_prefix]
      exact List.prefix_append (p :: ps) rest

lemma replaceFirst_of_freeOf (pat : List Char) (h : pat ≠ []) :
    ∀ body : List Char, freeOf pat body = true →
      replaceFirst pat (body ++ pat) = body
  | [], _ => by simpa using replaceFirst_head pat [] h
  | c :: cs, hb => by
    unfold freeOf at hb
    simp only [Bool.and_eq_true, Bool.not_eq_true'] at hb
    show replaceFirst pat (c :: (cs ++ pat)) = c :: cs
    unfold replaceFirst
    rw [if_neg]
    · rw [replaceFirst_of_freeOf pat h cs hb.2]
    · intro hpre
      have h1 := hb.1
      rw [List.cons_append] at h1
      rw [h1] at hpre
      exact Bool.noConfusion hpre

lemma dropJoin_splitFuel (size ov : Nat) (hs : ov < size) :
    ∀ (fuel : Nat) (d : List Char), d.length ≤ fuel →
      ((splitFuel size ov fuel d).map (List.drop ov)).flatten = List.drop ov d
  | 0, d, hf => by
    have hd : d = [] := List.eq_nil_of_length_eq_zero (Nat.le_zero.mp hf)
    subst hd; simp [splitFuel]
  | fuel + 1, d, hf => by
    unfold splitFuel
    by_cases hlen : d.length ≤ size
    · simp [hlen]
    · rw [if_neg hlen]
      simp only [List.map_cons, List.flatten_cons]
      have hrec : (List.drop (size - ov) d).length ≤ fuel := by
        rw [List.length_drop]; omega
      rw [dropJoin_splitFuel size ov hs fuel _ hrec]
      rw [List.drop_take, List.drop_drop]
      have e1 : size - ov + ov = size := by omega
      rw [e1]
      have e2 : List.drop size d = List.drop (size - ov) (List.drop ov d) := by
        rw [List.drop_drop]; congr 1; omega
      rw [e2]
      rw [List.take_append_drop]

lemma reassemble_splitFuel (size ov : Nat) (hs : ov < size) :
    ∀ (fuel : Nat) (d : List Char), d.length ≤ fuel →
      reassemble ov (splitFuel size ov fuel d) = d
  | 0, d, hf => by
    have hd : d = [] := List.eq_nil_of_length_eq_zero (Nat.le_zero.mp hf)
    subst hd; simp [splitFuel, reassemble]
  | fuel + 1, d, hf => by
    unfold splitFuel
    by_cases hlen : d.length ≤ size
    · simp [hlen, reassemble]
    · rw [if_neg hlen]
      show List.take size d
          ++ ((splitFuel size ov fuel (List.drop (size - ov) d)).map (List.drop ov)).flatten = d
      have hrec : (List.drop (size - ov) d).length ≤ fuel := by
        rw [List.length_drop]; omega
      rw [dropJoin_splitFuel size ov hs fuel _ hrec]
      rw [List.drop_drop]
      have e1 : size - ov + ov = size := by omega
      rw [e1, List.take_append_drop]

lemma splitFuel_head (size ov : Nat) :
    ∀ (fuel : Nat) (d : List Char), d.length ≤ fuel →
      ∃ t, splitFuel size ov fuel d = List.take size d :: t
  | 0, d, hf => by
    have hd : d = [] := List.eq_nil_of_length_eq_zero (Nat.le_zero.mp hf)
    subst hd; exact ⟨[], by simp [splitFuel]⟩
  | fuel + 1, d, hf => by
    unfold splitFuel
    by_cases hlen : d.length ≤ size
    · exact ⟨[], by simp [hlen, List.take_of_length_le hlen]⟩
    · exact ⟨_, by rw [if_neg hlen]⟩

lemma adjacentShare_splitFuel (size ov : Nat) (hs : ov < size) :
    ∀ (fuel : Nat) (d : List Char), d.length ≤ fuel →
      adjacentShareB ov (splitFuel size ov fuel d) = true
  | 0, d, hf => by
    have hd : d = [] := List.eq_nil_of_length_eq_zero (Nat.le_zero.mp hf)
    subst hd; simp [splitFuel, adjacentShareB]
  | fuel + 1, d, hf => by
    unfold splitFuel
    by_cases hlen : d.length ≤ size
    · simp [hlen, adjacentShareB]
    · rw [if_neg hlen]
      have hrec : (List.drop (size - ov) d).length ≤ fuel := by
        rw [List.length_drop]; omega
      obtain ⟨t, ht⟩ := splitFuel_head size ov fuel (List.drop (size - ov) d) hrec
      rw [ht]
      show (decide (List.drop ((List.take size d).length - ov) (List.take size d)
          = List.take ov (List.take size (List.drop (size - ov) d)))
          && adjacentShareB ov (List.take size (List.drop (size - ov) d) :: t)) = true
      have ih := adjacentShare_splitFuel size ov hs fuel _ hrec
      rw [ht] at ih
      rw [ih, Bool.and_true]
      have hlt : (List.take size d).length = size := by
        rw [List.length_take]; omega
      rw [hlt]
      rw [List.drop_take]
      have e1 : size - (size - ov) = ov := by omega
      rw [e1]
      rw [List.take_take]
      have e2 : min ov size = ov := by omega
      rw [e2]
      simp

/-- C1: for every raw LLM response text, when strict JSON parsing of the
fence-stripped text fails, normalization never raises (the normalizers are
total functions) and returns the shape's zero-value default: the empty
issue list for IssueList, the empty metric sections — which read as
all-zero metrics under the endpoint's field defaults — for MetricsReport,
and the input code with an empty bug list for BugInjectionResult. -/
theorem c1_parse_failure_default (resp code : String)
    (h : json_loads (String.mk (stripFence resp.data)) = none) :
    analyzeNormalize resp = Json.obj [("issues", Json.arr [])] ∧
    metricsNormalize resp = Json.obj [("summary_metrics", Json.obj []),
      ("issue_distribution", Json.obj [])] ∧
    metricsExtract (metricsNormalize resp) =
      some (⟨0, 0, 0, 0⟩, ⟨0, 0, 0, 0⟩) ∧
    injectNormalize code resp = Json.obj [("buggy_code", Json.str code),
      ("bugs_injected", Json.arr [])] := by
  unfold analyzeNormalize metricsNormalize injectNormalize
  rw [h]
  exact ⟨rfl, rfl, rfl, rfl⟩

/-- Witness for C1 at the unparsable response "not json". -/
theorem c1_parse_failure_default_witness :
    json_loads (String.mk (stripFence "not json".data)) = none ∧
    analyzeNormalize "not json" = Json.obj [("issues", Json.arr [])] :=
  ⟨rfl, (c1_parse_failure_default "not json" "x" rfl).1⟩

/-- C2 counterexample: the response "```json\nA\n```B\n```" is wrapped in a
leading and a trailing fence line with body "A\n```B", but the code removes
the first occurrence of "\n```" — which is inside the body — producing
"AB\n```" instead of stripping the trailing fence line and leaving the body
unchanged. -/
theorem c2_fence_strip_counterexample :
    stripFence "```json\nA\n```B\n```".data = "AB\n```".data ∧
    stripFence "```json\nA\n```B\n```".data ≠ "A\n```B".data :=
  ⟨by decide, by decide⟩

/-- C2 (amended): for raw text of the form "```json\n" ++ body ++ "\n```"
whose body contains no earlier occurrence of "\n```" (`freeOf`), the code
strips exactly the one leading and the one trailing fence line, leaving the
body unchanged; fences not tagged exactly "```json", or bodies with an
earlier "\n```", are handled by first-occurrence removal instead. -/
theorem c2_fence_strip_amended (body : List Char)
    (h : freeOf "\n```".data body = true) :
    stripFence ("```json\n".data ++ body ++ "\n```".data) = body := by
  unfold stripFence
  rw [if_pos]
  · rw [show ("```json\n".data ++ body ++ "\n```".data)
        = "```json\n".data ++ (body ++ "\n```".data) by simp]
    rw [replaceFirst_head _ _ (by decide)]
    exact replaceFirst_of_freeOf _ (by decide) body h
  · rw [Bool.and_eq_true, List.isPrefixOf_iff_prefix, List.isSuffixOf_iff_suffix]
    constructor
    · have h1 : "```json".data <+: "```json\n".data := by decide
      have h2 : "```json\n".data <+: "```json\n".data ++ (body ++ "\n```".data) :=
        List.prefix_append _ _
      rw [show ("```json\n".data ++ body ++ "\n```".data)
          = "```json\n".data ++ (body ++ "\n```".data) by simp]
      exact h1.trans h2
    · have h1 : "```".data <:+ "\n```".data := by decide
      have h2 : "\n```".data <:+ ("```json\n".data ++ body) ++ "\n```".data :=
        List.suffix_append _ _
      exact h1.trans h2

/-- Witness for the amended C2 at the body "A". -/
theorem c2_fence_strip_amended_witness :
    freeOf "\n```".data "A".data = true ∧
    stripFence ("```json\n".data ++ "A".data ++ "\n```".data) = "A".data :=
  ⟨by decide, c2_fence_strip_amended "A".data (by decide)⟩

/-- C3: normalize applied to the exact input "```json\n{"issues":[]}\n```"
for the IssueList shape returns the parsed object with an empty issues
array. -/
theorem c3_fenced_issuelist :
    analyzeNormalize "```json\n\x7b\"issues\":[]\x7d\n```"
      = Json.obj [("issues", Json.arr [])] := rfl

/-- C4 counterexample: the parsed issue object with all fields missing
(from the response body {"issues":[{}]}) yields an issue whose absent
numeric field lineNumber becomes None rather than 0. -/
theorem c4_field_defaults_counterexample :
    (formatIssue (Json.obj [])).map IssueDetail.lineNumber = some none ∧
    (none : Option Int) ≠ some 0 :=
  ⟨rfl, by decide⟩

/-- C4 (amended): for every response that parses as JSON with missing
fields (well-typed where present), the endpoint extraction applies
per-field defaults and returns a well-formed result of the requested
shape rather than rejecting it: absent numeric fields become 0 in the
metrics and bug shapes, absent string fields become the empty string, and
the analyze issue's optional lineNumber becomes None when absent. -/
theorem c4_field_defaults_amended (fs sm di bs : List (String × Json))
    (h1 : issueFieldsOk fs = true) (h2 : metricsFieldsOk sm di = true)
    (h3 : bugFieldsOk bs = true) :
    formatIssue (Json.obj fs) = some (issueFromFields fs) ∧
    metricsExtract (Json.obj [("summary_metrics", Json.obj sm),
      ("issue_distribution", Json.obj di)]) = some (metricsFromFields sm di) ∧
    formatBug (Json.obj bs) = some (bugFromFields bs) ∧
    metricsExtract (Json.obj []) = some (metricsFromFields [] []) ∧
    (lookupLast fs "title" = none → (issueFromFields fs).title = "") ∧
    (lookupLast fs "lineNumber" = none → (issueFromFields fs).lineNumber = none) ∧
    (lookupLast sm "code_quality_score" = none →
      (metricsFromFields sm di).1.code_quality_score = 0) ∧
    (lookupLast bs "line_number" = none → (bugFromFields bs).line_number = 0) := by
  refine ⟨?_, ?_, ?_, rfl, ?_, ?_, ?_, ?_⟩
  · unfold issueFieldsOk at h1
    simp only [Bool.and_eq_true] at h1
    obtain ⟨⟨⟨⟨⟨g1, g2⟩, g3⟩, g4⟩, g5⟩, g6⟩ := h1
    simp [formatIssue, issueFromFields, jget, asStr_jget_ok _ _ g1,
      asStr_jget_ok _ _ g2, asStr_jget_ok _ _ g3, asOptInt_ok _ _ g4,
      asStr_jget_ok _ _ g5, asStr_jget_ok _ _ g6]
  · unfold metricsFieldsOk at h2
    simp only [Bool.and_eq_true] at h2
    obtain ⟨⟨⟨⟨⟨⟨⟨g1, g2⟩, g3⟩, g4⟩, g5⟩, g6⟩, g7⟩, g8⟩ := h2
    simp [metricsExtract, metricsFromFields, pyGetAttr, jget, lookupLast,
      asIntJ_jget_ok _ _ g1, asIntJ_jget_ok _ _ g2, asIntJ_jget_ok _ _ g3,
      asIntJ_jget_ok _ _ g4, asIntJ_jget_ok _ _ g5, asIntJ_jget_ok _ _ g6,
      asIntJ_jget_ok _ _ g7, asIntJ_jget_ok _ _ g8]
  · unfold bugFieldsOk at h3
    simp only [Bool.and_eq_true] at h3
    obtain ⟨⟨g1, g2⟩, g3⟩ := h3
    simp [formatBug, bugFromFields, jget, asStr_jget_ok _ _ g1,
      asIntJ_jget_ok _ _ g2, asStr_jget_ok _ _ g3]
  · intro hn; unfold issueFromFields strField; rw [hn]
  · intro hn; unfold issueFromFields optIntField; rw [hn]
  · intro hn; unfold metricsFromFields intField; rw [hn]
  · intro hn; unfold bugFromFields intField; rw [hn]

/-- Witness for the amended C4 at an issue object carrying only a title. -/
theorem c4_field_defaults_amended_witness :
    issueFieldsOk [("title", Json.str "t")] = true ∧
    metricsFieldsOk [] [] = true ∧ bugFieldsOk [] = true ∧
    formatIssue (Json.obj [("title", Json.str "t")])
      = some (issueFromFields [("title", Json.str "t")]) :=
  ⟨rfl, rfl, rfl,
   (c4_field_defaults_amended [("title", Json.str "t")] [] [] [] rfl rfl rfl).1⟩

/-- C5: the caller-facing operations exposed to the API layer (the
`app.services` functions the routes import) all accept an optional
credential override; with no override the process-wide default credential
is consulted (`fallbackKey`), and when no valid credential exists the
operation fails with the `ValueError` before the LLM chain (for the RAG
variant: before the embedder, index search, or chain) is invoked — the
outcome is identical for every oracle. -/
theorem c5_credential_resolution (user dflt : Option String)
    (code bug_type : String) (sev num : Int)
    (llm llm2 : String → Except String String)
    (llmB llmB2 : String → String → Int → Int → Except String String)
    (embed embed2 : String → List Int)
    (search search2 : List Int → Nat → List String) (e : String)
    (h : get_api_key user dflt = Except.error e) :
    get_api_key none dflt = fallbackKey dflt ∧
    Services.analyze_code code user dflt llm = Except.error (PyErr.valueError e) ∧
    Services.analyze_code code user dflt llm
      = Services.analyze_code code user dflt llm2 ∧
    Services.get_code_metrics code user dflt llm
      = Except.error (PyErr.valueError e) ∧
    Services.get_code_metrics code user dflt llm
      = Services.get_code_metrics code user dflt llm2 ∧
    Services.inject_bugs code bug_type sev num user dflt llmB
      = Except.error (PyErr.valueError e) ∧
    Services.inject_bugs code bug_type sev num user dflt llmB
      = Services.inject_bugs code bug_type sev num user dflt llmB2 ∧
    RAG.analyze_code none code embed search llm
      = Except.error (PyErr.valueError ragKeyErrMsg) ∧
    RAG.analyze_code none code embed search llm
      = RAG.analyze_code none code embed2 search2 llm2 := by
  unfold Services.analyze_code Services.get_code_metrics Services.inject_bugs
    RAG.analyze_code
  rw [h]
  exact ⟨rfl, rfl, rfl, rfl, rfl, rfl, rfl, rfl, rfl⟩

/-- Witness for C5 with the placeholder override "null" and no environment
default. -/
theorem c5_credential_resolution_witness :
    get_api_key (some "null") none = Except.error apiKeyErrMsg ∧
    Services.analyze_code "c" (some "null") none (fun _ => Except.ok "")
      = Except.error (PyErr.valueError apiKeyErrMsg) :=
  ⟨rfl, (c5_credential_resolution (some "null") none "c" "b" 1 1
    (fun _ => Except.ok "") (fun _ => Except.ok "")
    (fun _ _ _ _ => Except.ok "") (fun _ _ _ _ => Except.ok "")
    (fun _ => []) (fun _ => []) (fun _ _ => []) (fun _ _ => [])
    apiKeyErrMsg rfl).2.1⟩

/-- C6: for every query and every k, retrieval on an empty vector index
returns the empty sequence (and, being a total function, never raises). -/
theorem c6_empty_index_retrieve (embed : String → List Int) (query : String)
    (k : Nat) : retrieve embed [] query k = [] := by
  simp [retrieve, similarity_search_by_vector]

/-- C7: an out-of-range inject-bugs parameter (severity_level outside
[1,5] or num_bugs outside [1,10]) and an empty snippet list are rejected
with 422 by the request validation, before the handler — and hence any
index or network access — runs: the outcome is identical for every chain
or ingestion oracle. -/
theorem c7_request_validation (r : InjectBugsRequest) (stored dflt : Option String)
    (llm llm2 : String → String → Int → Int → Except String String)
    (ingest ingest2 : List String → String)
    (h : r.severity_level < 1 ∨ 5 < r.severity_level
       ∨ r.num_bugs < 1 ∨ 10 < r.num_bugs) :
    inject_bugs_route r stored dflt llm = Except.error 422 ∧
    inject_bugs_route r stored dflt llm = inject_bugs_route r stored dflt llm2 ∧
    code_input_route [] ingest = Except.error 422 ∧
    code_input_route [] ingest = code_input_route [] ingest2 := by
  have hv : injectBugsRequestValid r = false := by
    rw [Bool.eq_false_iff]
    intro ht
    unfold injectBugsRequestValid at ht
    simp only [Bool.and_eq_true, decide_eq_true_eq] at ht
    rcases h with h | h | h | h <;> omega
  have hc : codeInputRequestValid [] = false := rfl
  unfold inject_bugs_route code_input_route
  rw [hv, hc]
  exact ⟨rfl, rfl, rfl, rfl⟩

/-- Witness for C7 at severity_level 0. -/
theorem c7_request_validation_witness :
    ((0 : Int) < 1 ∨ (5 : Int) < 0 ∨ (1 : Int) < 1 ∨ (10 : Int) < 1) ∧
    inject_bugs_route ⟨none, "b", 0, 1, none⟩ none none
      (fun _ _ _ _ => Except.ok "") = Except.error 422 :=
  ⟨Or.inl (by decide),
   (c7_request_validation ⟨none, "b", 0, 1, none⟩ none none
     (fun _ _ _ _ => Except.ok "") (fun _ _ _ _ => Except.ok "")
     (fun _ => "") (fun _ => "") (Or.inl (by decide))).1⟩

/-- C8: for every document and chunk parameters with overlap < size,
concatenating the chunks in order with each duplicated overlap region
removed once reproduces the document, and adjacent chunks share exactly
`overlap` characters of context. -/
theorem c8_chunk_reconstruction (size overlap : Nat) (d : List Char)
    (h : overlap < size) :
    reassemble overlap (split_text size overlap d) = d ∧
    adjacentShareB overlap (split_text size overlap d) = true :=
  ⟨reassemble_splitFuel size overlap h d.length d (Nat.le_refl _),
   adjacentShare_splitFuel size overlap h d.length d (Nat.le_refl _)⟩

/-- Witness for C8 at size 4, overlap 2, document "abcdefgh". -/
theorem c8_chunk_reconstruction_witness :
    2 < 4 ∧
    (reassemble 2 (split_text 4 2 "abcdefgh".data) = "abcdefgh".data ∧
     adjacentShareB 2 (split_text 4 2 "abcdefgh".data) = true) :=
  ⟨by decide, c8_chunk_reconstruction 4 2 "abcdefgh".data (by decide)⟩

/-- C9: a user-supplied key whose stripped, lowercased form is one of the
placeholders "string", "none", "null" or "" is treated as absent and the
resolver behaves exactly as with no user key (environment fallback); any
other user key is used verbatim after stripping. -/
theorem c9_placeholder_keys (u : String) (d : Option String) :
    get_api_key (some u) d =
      (if pyLower (pyStrip u) ∈ placeholderKeys then get_api_key none d
       else Except.ok (pyStrip u)) := by
  show (if u ≠ "" then
          if pyLower (pyStrip u) ∈ placeholderKeys then fallbackKey d
          else Except.ok (pyStrip u)
        else fallbackKey d) =
      (if pyLower (pyStrip u) ∈ placeholderKeys then fallbackKey d
       else Except.ok (pyStrip u))
  by_cases hu : u = ""
  · subst hu
    rw [if_neg (by simp)]
    rw [if_pos (by decide : pyLower (pyStrip "") ∈ placeholderKeys)]
  · rw [if_pos hu]

/-- C10: every response body the inject-bugs endpoint returns — success,
missing code, credential error, or any other exception path — satisfies
total_bugs_injected = length of its bugs_injected list. -/
theorem c10_total_matches_length (req : InjectBugsRequest)
    (stored dflt : Option String)
    (llm : String → String → Int → Int → Except String String) :
    (inject_bugs_endpoint req stored dflt llm).total_bugs_injected =
      ((inject_bugs_endpoint req stored dflt llm).bugs_injected.length : Int) := by
  simp only [inject_bugs_endpoint]
  repeat' split
  all_goals rfl
